import Mathlib

/-!
# Verification of the sessh TypeScript SDK wrapper

A shallow embedding of `src/index.ts` (the `SesshClient` facade, the
`runSessh` process invoker and the `parseResponse` response mapper),
together with executable models of the platform primitives the code
relies on: ECMAScript `String.prototype.trim` and `JSON.parse`.

The external `sessh` binary is modelled as an oracle (`World.spawn`);
each facade method returns the list of invocation requests it spawned
alongside its result, so that claims about spawned argument vectors,
environments, and the absence of spawning are directly statable.
-/

namespace Sessh

/-! ## Model of ECMAScript string trimming

`String.prototype.trim` removes leading and trailing WhiteSpace and
LineTerminator code points. -/

def isJsWhitespace (c : Char) : Bool :=
  c = ' ' || c = '\t' || c = '\n' || c = '\r' ||
  c = '\x0b' || c = '\x0c' ||
  c = '\u00a0' || c = '\ufeff' ||
  c = '\u2028' || c = '\u2029'

def jsTrim (s : String) : String :=
  String.mk (((s.data.dropWhile isJsWhitespace).reverse.dropWhile
    isJsWhitespace).reverse)

/-! ## Model of `JSON.parse`

A total, fuel-indexed parser of the JSON grammar.  Numbers are kept as
their raw literal text (this development does not model IEEE-754
semantics; no claim depends on numeric value arithmetic).  Objects keep
their fields in textual order; field lookup takes the last binding of a
key, matching ECMAScript's last-write-wins property assignment. -/

inductive Json where
  | null : Json
  | bool (b : Bool) : Json
  | num (raw : String) : Json
  | str (s : String) : Json
  | arr (items : List Json) : Json
  | obj (fields : List (String × Json)) : Json

def Json.getField (j : Json) (key : String) : Option Json :=
  match j with
  | .obj fields => (fields.reverse.find? (fun f => f.fst = key)).map (·.snd)
  | _ => none

def isJsonWs (c : Char) : Bool :=
  c = ' ' || c = '\t' || c = '\n' || c = '\r'

def skipWs : List Char → List Char
  | [] => []
  | c :: cs => if isJsonWs c then skipWs cs else c :: cs

def hexVal (c : Char) : Option Nat :=
  if '0' ≤ c ∧ c ≤ '9' then some (c.toNat - '0'.toNat)
  else if 'a' ≤ c ∧ c ≤ 'f' then some (c.toNat - 'a'.toNat + 10)
  else if 'A' ≤ c ∧ c ≤ 'F' then some (c.toNat - 'A'.toNat + 10)
  else none

/-- Body of a JSON string literal, after the opening quote. -/
def parseStrBody (fuel : Nat) (cs : List Char) (acc : List Char) :
    Option (String × List Char) :=
  match fuel with
  | 0 => none
  | fuel' + 1 =>
    match cs with
    | [] => none
    | '"' :: rest => some (String.mk acc.reverse, rest)
    | '\\' :: esc :: rest =>
      if esc = '"' then parseStrBody fuel' rest ('"' :: acc)
      else if esc = '\\' then parseStrBody fuel' rest ('\\' :: acc)
      else if esc = '/' then parseStrBody fuel' rest ('/' :: acc)
      else if esc = 'b' then parseStrBody fuel' rest ('\x08' :: acc)
      else if esc = 'f' then parseStrBody fuel' rest ('\x0c' :: acc)
      else if esc = 'n' then parseStrBody fuel' rest ('\n' :: acc)
      else if esc = 'r' then parseStrBody fuel' rest ('\r' :: acc)
      else if esc = 't' then parseStrBody fuel' rest ('\t' :: acc)
      else if esc = 'u' then
        match rest with
        | a :: b :: c :: d :: rest' =>
          match hexVal a, hexVal b, hexVal c, hexVal d with
          | some ha, some hb, some hc, some hd =>
            parseStrBody fuel' rest'
              (Char.ofNat (((ha * 16 + hb) * 16 + hc) * 16 + hd) :: acc)
          | _, _, _, _ => none
        | _ => none
      else none
    | c :: rest =>
      if c.toNat < 0x20 then none else parseStrBody fuel' rest (c :: acc)

def isDigit (c : Char) : Bool := '0' ≤ c && c ≤ '9'

/-- Longest prefix of decimal digits. -/
def spanDigits : List Char → List Char × List Char
  | [] => ([], [])
  | c :: cs =>
    if isDigit c then
      let (ds, rest) := spanDigits cs
      (c :: ds, rest)
    else ([], c :: cs)

/-- `int` part of a JSON number (sign already consumed): `0` or a
nonzero digit followed by digits. -/
def parseIntPart (cs : List Char) : Option (List Char × List Char) :=
  match cs with
  | '0' :: rest => some (['0'], rest)
  | c :: rest =>
    if isDigit c ∧ c ≠ '0' then
      let (ds, rest') := spanDigits rest
      some (c :: ds, rest')
    else none
  | [] => none

/-- Optional `frac` part: `.` followed by one or more digits. -/
def parseFracPart (cs : List Char) : Option (List Char × List Char) :=
  match cs with
  | '.' :: rest =>
    match spanDigits rest with
    | ([], _) => none
    | (ds, rest') => some ('.' :: ds, rest')
  | _ => some ([], cs)

/-- Optional `exp` part: `e`/`E`, optional sign, one or more digits. -/
def parseExpPart (cs : List Char) : Option (List Char × List Char) :=
  match cs with
  | e :: rest =>
    if e = 'e' ∨ e = 'E' then
      let (sgn, rest') := match rest with
        | '+' :: r => (['+'], r)
        | '-' :: r => (['-'], r)
        | r => ([], r)
      match spanDigits rest' with
      | ([], _) => none
      | (ds, rest'') => some (e :: (sgn ++ ds), rest'')
    else some ([], e :: rest)
  | [] => some ([], [])

/-- A full JSON number literal, returned as its raw text. -/
def parseNum (cs : List Char) : Option (String × List Char) :=
  let (sgn, cs') := match cs with
    | '-' :: r => (['-'], r)
    | r => ([], r)
  match parseIntPart cs' with
  | none => none
  | some (ip, rest) =>
    match parseFracPart rest with
    | none => none
    | some (fp, rest') =>
      match parseExpPart rest' with
      | none => none
      | some (ep, rest'') => some (String.mk (sgn ++ ip ++ fp ++ ep), rest'')

/-- Does `pre` prefix `cs`?  Returns the remainder if so. -/
def stripPre : List Char → List Char → Option (List Char)
  | [], cs => some cs
  | _, [] => none
  | p :: ps, c :: cs => if p = c then stripPre ps cs else none

mutual

/-- One JSON value, leading whitespace allowed. -/
def parseVal (fuel : Nat) (cs : List Char) : Option (Json × List Char) :=
  match fuel with
  | 0 => none
  | fuel' + 1 =>
    match skipWs cs with
    | [] => none
    | '"' :: rest =>
      match parseStrBody (rest.length + 1) rest [] with
      | some (s, rest') => some (.str s, rest')
      | none => none
    | '[' :: rest =>
      match skipWs rest with
      | ']' :: rest' => some (.arr [], rest')
      | rest' =>
        match parseVal fuel' rest' with
        | some (item, rest'') =>
          match parseArrRest fuel' rest'' [item] with
          | some (items, rest''') => some (.arr items, rest''')
          | none => none
        | none => none
    | '{' :: rest =>
      match skipWs rest with
      | '}' :: rest' => some (.obj [], rest')
      | rest' =>
        match parseMember fuel' rest' with
        | some (fld, rest'') =>
          match parseObjRest fuel' rest'' [fld] with
          | some (fields, rest''') => some (.obj fields, rest''')
          | none => none
        | none => none
    | cs' =>
      match stripPre "null".data cs' with
      | some rest => some (.null, rest)
      | none =>
        match stripPre "true".data cs' with
        | some rest => some (.bool true, rest)
        | none =>
          match stripPre "false".data cs' with
          | some rest => some (.bool false, rest)
          | none =>
            match parseNum cs' with
            | some (raw, rest) => some (.num raw, rest)
            | none => none

/-- Remaining items of an array after the first: `, value`* then `]`. -/
def parseArrRest (fuel : Nat) (cs : List Char) (acc : List Json) :
    Option (List Json × List Char) :=
  match fuel with
  | 0 => none
  | fuel' + 1 =>
    match skipWs cs with
    | ']' :: rest => some (acc.reverse, rest)
    | ',' :: rest =>
      match parseVal fuel' rest with
      | some (item, rest') => parseArrRest fuel' rest' (item :: acc)
      | none => none
    | _ => none

/-- One `"key" : value` member of an object. -/
def parseMember (fuel : Nat) (cs : List Char) :
    Option ((String × Json) × List Char) :=
  match fuel with
  | 0 => none
  | fuel' + 1 =>
    match skipWs cs with
    | '"' :: rest =>
      match parseStrBody (rest.length + 1) rest [] with
      | some (key, rest') =>
        match skipWs rest' with
        | ':' :: rest'' =>
          match parseVal fuel' rest'' with
          | some (v, rest''') => some ((key, v), rest''')
          | none => none
        | _ => none
      | none => none
    | _ => none

/-- Remaining members of an object after the first: `, member`* then `}`. -/
def parseObjRest (fuel : Nat) (cs : List Char) (acc : List (String × Json)) :
    Option (List (String × Json) × List Char) :=
  match fuel with
  | 0 => none
  | fuel' + 1 =>
    match skipWs cs with
    | '}' :: rest => some (acc.reverse, rest)
    | ',' :: rest =>
      match parseMember fuel' rest with
      | some (fld, rest') => parseObjRest fuel' rest' (fld :: acc)
      | none => none
    | _ => none

end

/-- Model of `JSON.parse`: parse one value, then only trailing
whitespace may remain.  `none` models a thrown `SyntaxError`. -/
def jsonParse (s : String) : Option Json :=
  match parseVal (s.data.length + 1) s.data with
  | some (j, rest) => if skipWs rest = [] then some j else none
  | none => none

end Sessh

namespace Sessh

/-! ## Data model: `SesshOptions` (Session Configuration) -/

structure SesshOptions where
  «alias» : String
  host : String
  port : Option Int
  sesshBin : Option String
  identity : Option String
  proxyjump : Option String

/-- ECMAScript truthiness of an optional string (`undefined` and `""`
are falsy). -/
def strTruthy : Option String → Bool
  | some s => s != ""
  | none => false

/-- ECMAScript truthiness of an optional number (`undefined` and `0`
are falsy). -/
def numTruthy : Option Int → Bool
  | some n => n != 0
  | none => false

/-! ## Process invoker (`runSessh`)

The spawned child process is an oracle: a `World` supplies the calling
process's environment and, for each invocation request, the raw exit
data of the external binary. -/

/-- An environment is a finite-support map from variable names to
values, modelled as a lookup function. -/
def envSet (e : String → Option String) (k v : String) :
    String → Option String :=
  fun key => if key = k then some v else e key

/-- `const env = { ...process.env, SESSH_JSON: "1" }` followed by the
two conditional assignments in `runSessh`. -/
def buildEnv (processEnv : String → Option String) (o : SesshOptions) :
    String → Option String :=
  let env := envSet processEnv "SESSH_JSON" "1"
  let env := if strTruthy o.identity then
      envSet env "SESSH_IDENTITY" (o.identity.getD "") else env
  if strTruthy o.proxyjump then
    envSet env "SESSH_PROXYJUMP" (o.proxyjump.getD "") else env

/-- `const sesshBin = options.sesshBin || "sessh"`. -/
def binOf (o : SesshOptions) : String :=
  if strTruthy o.sesshBin then o.sesshBin.getD "" else "sessh"

structure InvocationRequest where
  bin : String
  args : List String
  env : String → Option String

/-- What the runtime reports when the child closes: the exit code is
`none` when no numeric code is available (signal termination), and the
two streams are the accumulated unprocessed output. -/
structure RawExit where
  code : Option Int
  stdout : String
  stderr : String

structure InvocationResult where
  code : Int
  stdout : String
  stderr : String

structure World where
  processEnv : String → Option String
  spawn : InvocationRequest → RawExit

def mkRequest (w : World) (args : List String) (o : SesshOptions) :
    InvocationRequest :=
  { bin := binOf o, args := args, env := buildEnv w.processEnv o }

/-- The `close` handler:
`resolve({ code: code ?? 0, stdout: out.trim(), stderr: err.trim() })`. -/
def collectResult (raw : RawExit) : InvocationResult :=
  { code := raw.code.getD 0
    stdout := jsTrim raw.stdout
    stderr := jsTrim raw.stderr }

/-- `runSessh(args, options)`, instrumented to also return the request
it spawned. -/
def runSessh (w : World) (args : List String) (o : SesshOptions) :
    InvocationRequest × InvocationResult :=
  let req := mkRequest w args o
  (req, collectResult (w.spawn req))

/-! ## Response mapper (`parseResponse`) -/

/-- `parseResponse(result)`: `Except.error` models a thrown `Error`
carrying the message. -/
def parseResponse (result : InvocationResult) : Except String Json :=
  if result.code ≠ 0 ∧ result.stdout = "" then
    .error (if result.stderr ≠ "" then result.stderr
      else "sessh failed with exit code " ++ toString result.code)
  else
    match jsonParse result.stdout with
    | some j => .ok j
    | none => .error ("Invalid JSON from sessh: " ++ result.stdout)

/-! ## Client facade (`SesshClient`)

Each method returns the list of invocation requests it spawned together
with its outcome (`Except.error` models a rejected promise). -/

namespace SesshClient

def «open» (w : World) (o : SesshOptions) :
    List InvocationRequest × Except String Json :=
  let args := ["open", o.«alias», o.host] ++
    (if numTruthy o.port then [toString (o.port.getD 0)] else [])
  let (req, result) := runSessh w args o
  ([req], parseResponse result)

def run (w : World) (o : SesshOptions) (command : String) :
    List InvocationRequest × Except String Json :=
  let args := ["run", o.«alias», o.host, "--", command]
  let (req, result) := runSessh w args o
  ([req], parseResponse result)

/-- `logs(lines: number = 300)`: the optional argument is `none` when
the caller omits it. -/
def logs (w : World) (o : SesshOptions) (lines? : Option Int) :
    List InvocationRequest × Except String Json :=
  let lines := lines?.getD 300
  let args := ["logs", o.«alias», o.host, toString lines]
  let (req, result) := runSessh w args o
  ([req], parseResponse result)

def status (w : World) (o : SesshOptions) :
    List InvocationRequest × Except String Json :=
  let args := ["status", o.«alias», o.host] ++
    (if numTruthy o.port then [toString (o.port.getD 0)] else [])
  let (req, result) := runSessh w args o
  ([req], parseResponse result)

def close (w : World) (o : SesshOptions) :
    List InvocationRequest × Except String Json :=
  let args := ["close", o.«alias», o.host] ++
    (if numTruthy o.port then [toString (o.port.getD 0)] else [])
  let (req, result) := runSessh w args o
  ([req], parseResponse result)

/-- `attach()` throws before any subprocess work: no request is ever
spawned. -/
def attach (_w : World) (_o : SesshOptions) :
    List InvocationRequest × Except String Unit :=
  ([], .error "Interactive attach not supported via SDK. Use CLI: sessh attach")

def keys (w : World) (o : SesshOptions) (keySequence : String) :
    List InvocationRequest × Except String Json :=
  let args := ["keys", o.«alias», o.host, "--", keySequence]
  let (req, result) := runSessh w args o
  ([req], parseResponse result)

/-- `pane(lines: number = 300)`. -/
def pane (w : World) (o : SesshOptions) (lines? : Option Int) :
    List InvocationRequest × Except String Json :=
  let lines := lines?.getD 300
  let args := ["pane", o.«alias», o.host, toString lines]
  let (req, result) := runSessh w args o
  ([req], parseResponse result)

end SesshClient

end Sessh

namespace Sessh

/-! ## Test fixtures -/

/-- A world whose caller environment is empty and whose external binary
always produces the given raw exit data. -/
def constWorld (raw : RawExit) : World :=
  ⟨fun _ => none, fun _ => raw⟩

/-- The spec's running example configuration. -/
def demoOptions : SesshOptions :=
  ⟨"agent", "user@host", none, none, none, none⟩

/-! ## Helper lemmas -/

theorem envSet_self (e : String → Option String) (k v : String) :
    envSet e k v k = some v := by
  simp [envSet]

theorem envSet_ne (e : String → Option String) (k v k' : String)
    (h : k' ≠ k) : envSet e k v k' = e k' := by
  simp [envSet, h]

theorem runSessh_fst (w : World) (args : List String) (o : SesshOptions) :
    (runSessh w args o).fst = ⟨binOf o, args, buildEnv w.processEnv o⟩ :=
  rfl

theorem buildEnv_json (base : String → Option String) (o : SesshOptions) :
    buildEnv base o "SESSH_JSON" = some "1" := by
  unfold buildEnv
  by_cases h1 : strTruthy o.identity <;>
    by_cases h2 : strTruthy o.proxyjump <;>
      simp [h1, h2, envSet]

theorem buildEnv_other (base : String → Option String) (o : SesshOptions)
    (k : String) (h1 : k ≠ "SESSH_JSON") (h2 : k ≠ "SESSH_IDENTITY")
    (h3 : k ≠ "SESSH_PROXYJUMP") : buildEnv base o k = base k := by
  unfold buildEnv
  by_cases hi : strTruthy o.identity <;>
    by_cases hp : strTruthy o.proxyjump <;>
      simp [hi, hp, envSet, h1, h2, h3]

theorem buildEnv_identity_truthy (base : String → Option String)
    (o : SesshOptions) (p : String) (hp : o.identity = some p)
    (hne : p ≠ "") : buildEnv base o "SESSH_IDENTITY" = some p := by
  have h1 : strTruthy o.identity = true := by simp [strTruthy, hp, hne]
  have hsp : strTruthy (some p) = true := by simp [strTruthy, hne]
  unfold buildEnv
  by_cases h2 : strTruthy o.proxyjump <;>
    simp [h1, h2, hsp, envSet, hp]

theorem buildEnv_identity_falsy (base : String → Option String)
    (o : SesshOptions) (h : strTruthy o.identity = false) :
    buildEnv base o "SESSH_IDENTITY" = base "SESSH_IDENTITY" := by
  unfold buildEnv
  by_cases h2 : strTruthy o.proxyjump <;> simp [h, h2, envSet]

theorem buildEnv_proxyjump_truthy (base : String → Option String)
    (o : SesshOptions) (p : String) (hp : o.proxyjump = some p)
    (hne : p ≠ "") : buildEnv base o "SESSH_PROXYJUMP" = some p := by
  have h2 : strTruthy o.proxyjump = true := by simp [strTruthy, hp, hne]
  have hsp : strTruthy (some p) = true := by simp [strTruthy, hne]
  unfold buildEnv
  by_cases h1 : strTruthy o.identity <;>
    simp [h1, h2, hsp, envSet, hp]

theorem buildEnv_proxyjump_falsy (base : String → Option String)
    (o : SesshOptions) (h : strTruthy o.proxyjump = false) :
    buildEnv base o "SESSH_PROXYJUMP" = base "SESSH_PROXYJUMP" := by
  unfold buildEnv
  by_cases h1 : strTruthy o.identity <;> simp [h, h1, envSet]

end Sessh

namespace Sessh

/-- C1: for every invocation result whose exit code is non-zero and
whose (trimmed) stdout is empty, `parseResponse` raises instead of
returning a structured response, and the raised message equals the
captured (trimmed) stderr when that is non-empty, else a generic
message naming the exit code. -/
theorem parseResponse_nonzeroExit_emptyOut (r : InvocationResult)
    (hc : r.code ≠ 0) (hs : r.stdout = "") :
    ∃ msg, parseResponse r = Except.error msg ∧
      (r.stderr ≠ "" → msg = r.stderr) ∧
      (r.stderr = "" →
        msg = "sessh failed with exit code " ++ toString r.code) := by
  refine ⟨if r.stderr ≠ "" then r.stderr
    else "sessh failed with exit code " ++ toString r.code, ?_, ?_, ?_⟩
  · unfold parseResponse
    rw [if_pos ⟨hc, hs⟩]
  · intro h
    rw [if_pos h]
  · intro h
    rw [if_neg (by simp [h])]

theorem parseResponse_nonzeroExit_emptyOut_witness :
    ∃ msg, parseResponse ⟨1, "", "connection refused"⟩ = Except.error msg ∧
      ("connection refused" ≠ "" → msg = "connection refused") ∧
      ("connection refused" = "" →
        msg = "sessh failed with exit code " ++ toString (1 : Int)) :=
  parseResponse_nonzeroExit_emptyOut ⟨1, "", "connection refused"⟩
    (by decide) rfl

/-- C2: for every invocation result whose stdout is not decodable as
JSON and which does not hit the non-zero-exit/empty-stdout branch,
`parseResponse` raises an error whose message includes the raw stdout
text, and never returns a structured response. -/
theorem parseResponse_invalidJson (r : InvocationResult)
    (hj : jsonParse r.stdout = none)
    (hcase : ¬ (r.code ≠ 0 ∧ r.stdout = "")) :
    parseResponse r = Except.error ("Invalid JSON from sessh: " ++ r.stdout) ∧
      ∀ j, parseResponse r ≠ Except.ok j := by
  have h : parseResponse r =
      Except.error ("Invalid JSON from sessh: " ++ r.stdout) := by
    unfold parseResponse
    rw [if_neg hcase, hj]
  refine ⟨h, fun j hne => ?_⟩
  rw [h] at hne
  cases hne

theorem parseResponse_invalidJson_witness :
    parseResponse ⟨0, "not json", ""⟩ =
        Except.error ("Invalid JSON from sessh: " ++ "not json") ∧
      ∀ j, parseResponse ⟨0, "not json", ""⟩ ≠ Except.ok j :=
  parseResponse_invalidJson ⟨0, "not json", ""⟩ rfl (by decide)

/-- C3: whenever the child exits 0 and stdout decodes, the facade
resolves with the decoded structured response; decoding is attempted
even on a non-zero exit as long as stdout is non-empty; and concretely,
with alias "agent", host "user@host", exit 0 and stdout
`{"ok":true,"op":"open"}`, `open()` resolves with the mapping
`{ok: true, op: "open"}`. -/
theorem parseResponse_decodes_stdout :
    (∀ (r : InvocationResult) (j : Json), r.code = 0 →
        jsonParse r.stdout = some j → parseResponse r = Except.ok j) ∧
    (∀ r : InvocationResult, r.code ≠ 0 → r.stdout ≠ "" →
        parseResponse r = (match jsonParse r.stdout with
          | some j => Except.ok j
          | none =>
            Except.error ("Invalid JSON from sessh: " ++ r.stdout))) ∧
    ((SesshClient.«open»
        (constWorld ⟨some 0, "\x7b\"ok\":true,\"op\":\"open\"\x7d", ""⟩)
        demoOptions).snd =
      Except.ok (Json.obj [("ok", Json.bool true), ("op", Json.str "open")])) := by
  refine ⟨?_, ?_, ?_⟩
  · intro r j hc hj
    unfold parseResponse
    rw [if_neg (by simp [hc]), hj]
  · intro r hc hs
    unfold parseResponse
    rw [if_neg (by simp [hs])]
  · rfl

theorem parseResponse_decodes_stdout_witness :
    parseResponse ⟨0, "\x7b\"ok\":true\x7d", ""⟩ =
      Except.ok (Json.obj [("ok", Json.bool true)]) :=
  parseResponse_decodes_stdout.1 ⟨0, "\x7b\"ok\":true\x7d", ""⟩
    (Json.obj [("ok", Json.bool true)]) rfl rfl

/-- C5: for every world and session configuration, `attach()` raises
unconditionally (with the fixed unsupported-operation message) and
spawns no subprocess: its request trace is empty. -/
theorem attach_always_raises_spawns_nothing (w : World) (o : SesshOptions) :
    SesshClient.attach w o =
      ([], Except.error
        "Interactive attach not supported via SDK. Use CLI: sessh attach") :=
  rfl

/-- C9: the invocation result normalizes an absent exit code to 0,
passes a reported numeric code through unchanged, and carries the
trimmed accumulated streams; `runSessh` resolves with exactly this
normalization of what the spawned child reported. -/
theorem collectResult_normalization :
    (∀ out err, (collectResult ⟨none, out, err⟩).code = 0) ∧
    (∀ c out err, (collectResult ⟨some c, out, err⟩).code = c) ∧
    (∀ oc out err, (collectResult ⟨oc, out, err⟩).stdout = jsTrim out ∧
        (collectResult ⟨oc, out, err⟩).stderr = jsTrim err) ∧
    (∀ w args o, (runSessh w args o).snd =
        collectResult (w.spawn (runSessh w args o).fst)) :=
  ⟨fun _ _ => rfl, fun _ _ _ => rfl, fun _ _ _ => ⟨rfl, rfl⟩,
    fun _ _ _ => rfl⟩

end Sessh

namespace Sessh

/-- C4: every spawned invocation's environment, for every operation and
every session configuration, contains the structured-output flag
`SESSH_JSON = "1"`, and the environment is merged over the calling
process's environment (all keys other than the three managed variables
pass through unchanged). -/
theorem every_request_env_has_json_flag :
    (∀ (w : World) (o : SesshOptions) (k : String), k ≠ "SESSH_JSON" →
        k ≠ "SESSH_IDENTITY" → k ≠ "SESSH_PROXYJUMP" →
        buildEnv w.processEnv o k = w.processEnv k) ∧
    (∀ w o req, req ∈ (SesshClient.«open» w o).fst →
        req.env "SESSH_JSON" = some "1") ∧
    (∀ w o cmd req, req ∈ (SesshClient.run w o cmd).fst →
        req.env "SESSH_JSON" = some "1") ∧
    (∀ w o n req, req ∈ (SesshClient.logs w o n).fst →
        req.env "SESSH_JSON" = some "1") ∧
    (∀ w o req, req ∈ (SesshClient.status w o).fst →
        req.env "SESSH_JSON" = some "1") ∧
    (∀ w o req, req ∈ (SesshClient.close w o).fst →
        req.env "SESSH_JSON" = some "1") ∧
    (∀ w o ks req, req ∈ (SesshClient.keys w o ks).fst →
        req.env "SESSH_JSON" = some "1") ∧
    (∀ w o n req, req ∈ (SesshClient.pane w o n).fst →
        req.env "SESSH_JSON" = some "1") := by
  refine ⟨fun w o k h1 h2 h3 => buildEnv_other w.processEnv o k h1 h2 h3,
    ?_, ?_, ?_, ?_, ?_, ?_, ?_⟩
  · intro w o req h
    rw [List.eq_of_mem_singleton h]
    exact buildEnv_json w.processEnv o
  · intro w o cmd req h
    rw [List.eq_of_mem_singleton h]
    exact buildEnv_json w.processEnv o
  · intro w o n req h
    rw [List.eq_of_mem_singleton h]
    exact buildEnv_json w.processEnv o
  · intro w o req h
    rw [List.eq_of_mem_singleton h]
    exact buildEnv_json w.processEnv o
  · intro w o req h
    rw [List.eq_of_mem_singleton h]
    exact buildEnv_json w.processEnv o
  · intro w o ks req h
    rw [List.eq_of_mem_singleton h]
    exact buildEnv_json w.processEnv o
  · intro w o n req h
    rw [List.eq_of_mem_singleton h]
    exact buildEnv_json w.processEnv o

theorem every_request_env_has_json_flag_witness :
    (mkRequest (constWorld ⟨some 0, "", ""⟩) ["open", "agent", "user@host"]
      demoOptions).env "SESSH_JSON" = some "1" :=
  every_request_env_has_json_flag.2.1 (constWorld ⟨some 0, "", ""⟩)
    demoOptions _ (List.mem_singleton.mpr rfl)

/-- C6: the spawned environment is `buildEnv` of the caller's
environment; when a non-empty identity path is configured,
`SESSH_IDENTITY` is present and equals it; when identity is absent the
variable passes through from the caller unchanged — in particular it is
absent (not set to an empty value) whenever the caller does not define
it.  The same holds for the proxyjump / `SESSH_PROXYJUMP` pair. -/
theorem identity_proxyjump_env_rule :
    (∀ (w : World) (args : List String) (o : SesshOptions),
        (runSessh w args o).fst.env = buildEnv w.processEnv o) ∧
    (∀ base o p, o.identity = some p → p ≠ "" →
        buildEnv base o "SESSH_IDENTITY" = some p) ∧
    (∀ base o, o.identity = none →
        buildEnv base o "SESSH_IDENTITY" = base "SESSH_IDENTITY") ∧
    (∀ base o, o.identity = none → base "SESSH_IDENTITY" = none →
        buildEnv base o "SESSH_IDENTITY" = none) ∧
    (∀ base o p, o.proxyjump = some p → p ≠ "" →
        buildEnv base o "SESSH_PROXYJUMP" = some p) ∧
    (∀ base o, o.proxyjump = none →
        buildEnv base o "SESSH_PROXYJUMP" = base "SESSH_PROXYJUMP") ∧
    (∀ base o, o.proxyjump = none → base "SESSH_PROXYJUMP" = none →
        buildEnv base o "SESSH_PROXYJUMP" = none) := by
  refine ⟨fun _ _ _ => rfl,
    fun base o p hp hne => buildEnv_identity_truthy base o p hp hne,
    fun base o h => buildEnv_identity_falsy base o (by simp [strTruthy, h]),
    ?_,
    fun base o p hp hne => buildEnv_proxyjump_truthy base o p hp hne,
    fun base o h => buildEnv_proxyjump_falsy base o (by simp [strTruthy, h]),
    ?_⟩
  · intro base o h hb
    rw [buildEnv_identity_falsy base o (by simp [strTruthy, h])]
    exact hb
  · intro base o h hb
    rw [buildEnv_proxyjump_falsy base o (by simp [strTruthy, h])]
    exact hb

theorem identity_proxyjump_env_rule_witness :
    buildEnv (fun _ => none)
        ⟨"agent", "user@host", none, none, some "/id", none⟩
        "SESSH_IDENTITY" = some "/id" ∧
      buildEnv (fun _ => none) demoOptions "SESSH_IDENTITY" = none :=
  ⟨identity_proxyjump_env_rule.2.1 (fun _ => none)
      ⟨"agent", "user@host", none, none, some "/id", none⟩ "/id" rfl
      (by decide),
    identity_proxyjump_env_rule.2.2.2.1 (fun _ => none) demoOptions rfl rfl⟩

end Sessh

namespace Sessh

/-- C7: `logs(N)` issues exactly `["logs", alias, host, String(N)]`
(no port appended), the line count defaults to 300 when omitted,
`pane(N)` issues the same shape with keyword `"pane"`, and in the
spec's scenario the decoded response carries the captured text and
line count. -/
theorem logs_pane_argument_shape :
    (∀ w o n, (SesshClient.logs w o (some n)).fst.map InvocationRequest.args =
        [["logs", o.«alias», o.host, toString n]]) ∧
    (∀ w o, SesshClient.logs w o none = SesshClient.logs w o (some 300)) ∧
    (∀ w o n, (SesshClient.pane w o (some n)).fst.map InvocationRequest.args =
        [["pane", o.«alias», o.host, toString n]]) ∧
    (∀ w o, SesshClient.pane w o none = SesshClient.pane w o (some 300)) ∧
    ((SesshClient.logs
        (constWorld ⟨some 0,
          "\x7b\"ok\":true,\"op\":\"logs\",\"output\":\"hi\\n\",\"lines\":1\x7d", ""⟩)
        demoOptions (some 50)).fst.map InvocationRequest.args =
      [["logs", "agent", "user@host", "50"]]) ∧
    (∃ j, (SesshClient.logs
        (constWorld ⟨some 0,
          "\x7b\"ok\":true,\"op\":\"logs\",\"output\":\"hi\\n\",\"lines\":1\x7d", ""⟩)
        demoOptions (some 50)).snd = Except.ok j ∧
      j.getField "output" = some (Json.str "hi\n") ∧
      j.getField "lines" = some (Json.num "1")) :=
  ⟨fun _ _ _ => rfl, fun _ _ => rfl, fun _ _ _ => rfl, fun _ _ => rfl, rfl,
    ⟨Json.obj [("ok", Json.bool true), ("op", Json.str "logs"),
      ("output", Json.str "hi\n"), ("lines", Json.num "1")],
      rfl, rfl, rfl⟩⟩

/-- C8: `run(command)` issues exactly
`["run", alias, host, "--", command]` and `keys(keySequence)` issues
exactly `["keys", alias, host, "--", keySequence]`, with the free-form
string after an explicit `"--"` separator and no port appended; for
`open`, `status` and `close` a configured (non-zero) port is appended
as the final argument. -/
theorem run_keys_separator_port_rule :
    (∀ w o cmd, (SesshClient.run w o cmd).fst.map InvocationRequest.args =
        [["run", o.«alias», o.host, "--", cmd]]) ∧
    (∀ w o ks, (SesshClient.keys w o ks).fst.map InvocationRequest.args =
        [["keys", o.«alias», o.host, "--", ks]]) ∧
    (∀ w o p, o.port = some p → p ≠ 0 →
        (SesshClient.«open» w o).fst.map InvocationRequest.args =
          [["open", o.«alias», o.host, toString p]] ∧
        (SesshClient.status w o).fst.map InvocationRequest.args =
          [["status", o.«alias», o.host, toString p]] ∧
        (SesshClient.close w o).fst.map InvocationRequest.args =
          [["close", o.«alias», o.host, toString p]]) := by
  refine ⟨fun _ _ _ => rfl, fun _ _ _ => rfl, ?_⟩
  intro w o p hp hne
  have ht : numTruthy o.port = true := by simp [numTruthy, hp, hne]
  have htp : numTruthy (some p) = true := by simp [numTruthy, hne]
  refine ⟨?_, ?_, ?_⟩ <;>
    simp [SesshClient.«open», SesshClient.status, SesshClient.close,
      runSessh, mkRequest, ht, htp, hp]

theorem run_keys_separator_port_rule_witness :
    (SesshClient.«open» (constWorld ⟨some 0, "", ""⟩)
        ⟨"agent", "user@host", some 2222, none, none, none⟩).fst.map
        InvocationRequest.args =
      [["open", "agent", "user@host", "2222"]] ∧
    (SesshClient.status (constWorld ⟨some 0, "", ""⟩)
        ⟨"agent", "user@host", some 2222, none, none, none⟩).fst.map
        InvocationRequest.args =
      [["status", "agent", "user@host", "2222"]] ∧
    (SesshClient.close (constWorld ⟨some 0, "", ""⟩)
        ⟨"agent", "user@host", some 2222, none, none, none⟩).fst.map
        InvocationRequest.args =
      [["close", "agent", "user@host", "2222"]] :=
  run_keys_separator_port_rule.2.2 (constWorld ⟨some 0, "", ""⟩)
    ⟨"agent", "user@host", some 2222, none, none, none⟩ 2222 rfl (by decide)

/-- C10: optional configuration values are tested for truthiness, not
presence: a configured port of 0 appends no port argument to `open`,
`status` or `close`; an empty-string identity or proxyjump leaves the
corresponding environment variable passing through from the caller
(hence unset when the caller does not define it); and an empty-string
`sesshBin` falls back to the default binary name `"sessh"`, which is
the binary named in every spawned request. -/
theorem falsy_option_values_behave_as_unset :
    (∀ w o, o.port = some 0 →
        (SesshClient.«open» w o).fst.map InvocationRequest.args =
          [["open", o.«alias», o.host]] ∧
        (SesshClient.status w o).fst.map InvocationRequest.args =
          [["status", o.«alias», o.host]] ∧
        (SesshClient.close w o).fst.map InvocationRequest.args =
          [["close", o.«alias», o.host]]) ∧
    (∀ base o, o.identity = some "" →
        buildEnv base o "SESSH_IDENTITY" = base "SESSH_IDENTITY") ∧
    (∀ base o, o.identity = some "" → base "SESSH_IDENTITY" = none →
        buildEnv base o "SESSH_IDENTITY" = none) ∧
    (∀ base o, o.proxyjump = some "" →
        buildEnv base o "SESSH_PROXYJUMP" = base "SESSH_PROXYJUMP") ∧
    (∀ (o : SesshOptions), o.sesshBin = some "" → binOf o = "sessh") ∧
    (∀ (w : World) (args : List String) (o : SesshOptions),
        (runSessh w args o).fst.bin = binOf o) := by
  refine ⟨?_, ?_, ?_, ?_, ?_, fun _ _ _ => rfl⟩
  · intro w o hp
    have ht : numTruthy o.port = false := by simp [numTruthy, hp]
    refine ⟨?_, ?_, ?_⟩ <;>
      simp [SesshClient.«open», SesshClient.status, SesshClient.close,
        runSessh, mkRequest, ht]
  · intro base o h
    exact buildEnv_identity_falsy base o (by simp [strTruthy, h])
  · intro base o h hb
    rw [buildEnv_identity_falsy base o (by simp [strTruthy, h])]
    exact hb
  · intro base o h
    exact buildEnv_proxyjump_falsy base o (by simp [strTruthy, h])
  · intro o h
    simp [binOf, strTruthy, h]

theorem falsy_option_values_behave_as_unset_witness :
    ((SesshClient.«open» (constWorld ⟨some 0, "", ""⟩)
        ⟨"agent", "user@host", some 0, none, none, none⟩).fst.map
        InvocationRequest.args =
      [["open", "agent", "user@host"]] ∧
    (SesshClient.status (constWorld ⟨some 0, "", ""⟩)
        ⟨"agent", "user@host", some 0, none, none, none⟩).fst.map
        InvocationRequest.args =
      [["status", "agent", "user@host"]] ∧
    (SesshClient.close (constWorld ⟨some 0, "", ""⟩)
        ⟨"agent", "user@host", some 0, none, none, none⟩).fst.map
        InvocationRequest.args =
      [["close", "agent", "user@host"]]) ∧
    binOf ⟨"agent", "user@host", none, some "", none, none⟩ = "sessh" :=
  ⟨falsy_option_values_behave_as_unset.1 (constWorld ⟨some 0, "", ""⟩)
      ⟨"agent", "user@host", some 0, none, none, none⟩ rfl,
    falsy_option_values_behave_as_unset.2.2.2.2.1
      ⟨"agent", "user@host", none, some "", none, none⟩ rfl⟩

end Sessh
